import Mathlib

/-!
Verification of the TypstScan capture pipeline.

The definitions below are a shallow embedding of the program:

* the worker loop of src/src/worker.rs (function start_worker), which per
  dequeued SnipTask takes a screenshot, posts it to the transcription
  service, converts the recognized text, applies the replace rules, writes
  the clipboard according to the clipboard mode, and sends one TaskResult;
* the rule loop (worker.rs lines 110 to 112), whose inner operation is the
  Rust function String::replace, embedded here at character level,
  including its empty pattern behaviour;
* the per tick result merge of src/src/app.rs (method update, lines 96 to
  108), which pops at most one pending MathpixResult from the back of the
  result queue vector and appends a SnipItem.

Strings are modelled as lists of characters; for valid UTF-8 data,
equality of character lists coincides with byte equality of the Rust
strings. External collaborators (screenshot capture, HTTP transport,
response parsing, the lock on the shared data, the markup converter) are
modelled as per task oracle inputs, since the worker only branches on
their outcomes. A Rust panic (an unwrap or expect that fails) is modelled
as the absence of a normal outcome, Option.none.
-/

/-- Character level model of Rust strings. -/
abbrev Str := List Char

/-- Helper turning a Lean string literal into the character list model. -/
def strOf (s : String) : Str := s.data

/-- Task identifiers (type Uuid in the source) modelled as abstract naturals. -/
abbrev Uuid := Nat

/-- A literal find and replace rule (struct ReplaceRule in the app module). -/
structure ReplaceRule where
  pattern : Str
  replacement : Str
deriving DecidableEq, Repr

/-- Clipboard delivery mode read by the worker (enum ClipboardMode).
The spec names the last two modes CopySource and CopyConverted; the code
names them CopyTeX and CopyTypst. -/
inductive ClipboardMode
  | Continuous
  | CopyTeX
  | CopyTypst
deriving DecidableEq, Repr

/-- The fields of the shared TypstScanData that the worker thread reads
(worker.rs accesses bring_forward, target_process_name, target_window_title,
mathpix_api_key, replace_rules and clipboard_mode). -/
structure TypstScanData where
  mathpix_api_key : Str
  replace_rules : List ReplaceRule
  clipboard_mode : ClipboardMode
  bring_forward : Bool
  target_process_name : Str
  target_window_title : Str
deriving DecidableEq, Repr

/-- struct UrlDetail of the Mathpix response schema. -/
structure UrlDetail where
  url : Str
deriving DecidableEq, Repr

/-- struct ImageDetails of the Mathpix response schema. -/
structure ImageDetails where
  fullsize : UrlDetail
  thumbnail : UrlDetail
deriving DecidableEq, Repr

/-- struct Images of the Mathpix response schema. -/
structure Images where
  original : ImageDetails
  rendered : ImageDetails
deriving DecidableEq, Repr

/-- struct TimeMs of the Mathpix response schema. -/
structure TimeMs where
  ocr_api_response : Nat
  read_request_body : Nat
deriving DecidableEq, Repr

/-- struct MathpixResult, the parsed service response (worker.rs lines 177
to 198). The floating point diagnostic fields (confidence,
auto_rotate_confidence, font_size) are elided: no code under verification
reads them. -/
structure MathpixResult where
  id : Str
  status : Str
  text : Str
  latex : Option Str
  title : Str
  images : Images
  auto_rotate_degrees : Int
  ocr_version : Nat
  created_at : Str
  modified_at : Str
  time_ms : TimeMs
  snip_count : Nat
  snip_limit : Nat
  extra_snips : Nat
  snip_overage_count : Nat
  folder_id : Str
deriving DecidableEq, Repr

/-- struct SnipTask (worker.rs lines 152 to 154). -/
structure SnipTask where
  id : Uuid
deriving DecidableEq, Repr

/-- struct TaskResult (worker.rs lines 162 to 174). -/
structure TaskResult where
  id : Uuid
  local_image : Str
  original_image : Str
  rendered_image : Str
  text : Str
  latex : Option Str
  typst : Str
  title : Str
  snip_count : Nat
  snip_limit : Nat
deriving DecidableEq, Repr

/-- Scan of Rust str::replace for a non empty pattern p :: ps: leftmost non
overlapping matches, each replaced by rep, scanning left to right. The Nat
argument is structural recursion fuel; every step consumes at least one
input character and exactly one unit of fuel, so starting the scan with
fuel equal to the input length (as rustReplace does) the zero fuel branch
is never reached. -/
def rustReplaceGo (p : Char) (ps rep : Str) : Nat → Str → Str
  | _, [] => []
  | 0, l => l
  | Nat.succ fuel, c :: rest =>
    if (p :: ps).isPrefixOf (c :: rest) then
      rep ++ rustReplaceGo p ps rep fuel (rest.drop ps.length)
    else
      c :: rustReplaceGo p ps rep fuel rest

/-- Empty pattern behaviour of Rust str::replace: the empty pattern matches
at every character boundary, so the replacement is inserted before every
character and once at the end. -/
def emptyPatReplace (rep : Str) : Str → Str
  | [] => rep
  | c :: rest => rep ++ c :: emptyPatReplace rep rest

/-- Rust String::replace self pattern replacement, at character level. -/
def rustReplace (s pat rep : Str) : Str :=
  match pat with
  | [] => emptyPatReplace rep s
  | p :: ps => rustReplaceGo p ps rep s.length s

/-- The rule loop of the worker (worker.rs lines 110 to 112): a left fold
of String::replace over the ordered rule list. -/
def applyRules (rules : List ReplaceRule) (t : Str) : Str :=
  rules.foldl (fun acc r => rustReplace acc r.pattern r.replacement) t

/-- Fallback converted text on conversion failure (worker.rs line 107):
the code substitutes format "Error: {:?}" of the error, never the empty
string. The error value is modelled by its rendered text e. -/
def convFallback (e : Str) : Str :=
  'E' :: 'r' :: 'r' :: 'o' :: 'r' :: ':' :: ' ' :: e

/-- unwrap_or_else applied to the conversion result (worker.rs line 107). -/
def convOut (convert : Str → Except Str Str) (t : Str) : Str :=
  match convert t with
  | Except.ok s => s
  | Except.error e => convFallback e

/-- Per task oracle: the outcomes of the external collaborators that one
iteration of the worker loop observes. capture is the return of
get_screenshot, sendOk tells whether the HTTP send succeeded (on failure
the code unwraps and panics), parse is the outcome of parsing the body as
MathpixResult, lockOk tells whether the lock taken at worker.rs line 109
succeeded, and appData is the shared data snapshot seen under that lock. -/
structure TaskEnv where
  capture : Option Str
  sendOk : Bool
  parse : Option MathpixResult
  lockOk : Bool
  appData : TypstScanData
deriving DecidableEq, Repr

/-- Observable effects of one worker iteration: the TaskResults sent on the
result channel and the texts written to the system clipboard, in order. -/
structure StepEffects where
  results : List TaskResult
  clipWrites : List Str
deriving DecidableEq, Repr

/-- The converted and rule transformed text (worker.rs lines 107 to 112):
when the lock fails the loop body is skipped and the text stays as
converted. -/
def taskTypst (convert : Str → Except Str Str) (env : TaskEnv) (m : MathpixResult) : Str :=
  if env.lockOk then applyRules env.appData.replace_rules (convOut convert m.text)
  else convOut convert m.text

/-- The clipboard writes of one completed task (worker.rs lines 114 to
124), performed under the same lock as the rule loop. -/
def taskWrites (convert : Str → Except Str Str) (env : TaskEnv) (m : MathpixResult) : List Str :=
  if env.lockOk then
    match env.appData.clipboard_mode with
    | ClipboardMode.Continuous => []
    | ClipboardMode.CopyTeX => [m.text]
    | ClipboardMode.CopyTypst => [taskTypst convert env m]
  else []

/-- The TaskResult built at worker.rs lines 127 to 138. -/
def mkTaskResult (convert : Str → Except Str Str) (env : TaskEnv) (task : SnipTask)
    (path : Str) (m : MathpixResult) : TaskResult :=
  { id := task.id
    local_image := path
    original_image := m.images.original.fullsize.url
    rendered_image := m.images.rendered.fullsize.url
    text := m.text
    latex := m.latex
    typst := taskTypst convert env m
    title := m.title
    snip_count := m.snip_count
    snip_limit := m.snip_limit }

/-- One iteration of the worker loop (worker.rs lines 47 to 148) for one
dequeued task. none models a panic of the worker thread: the send unwrap
at line 103 fails on a transport error. A cancelled capture (line 146) and
a body that fails to parse (line 142) complete normally with no effects. -/
def processTask (convert : Str → Except Str Str) (env : TaskEnv) (task : SnipTask) :
    Option StepEffects :=
  match env.capture with
  | none => some { results := [], clipWrites := [] }
  | some path =>
    match env.sendOk with
    | false => none
    | true =>
      match env.parse with
      | none => some { results := [], clipWrites := [] }
      | some m =>
        some { results := [mkTaskResult convert env task path m]
               clipWrites := taskWrites convert env m }

/-- The worker loop over a queue of tasks with their oracle outcomes. A
panic (processTask = none) kills the worker thread, so no later task is
processed and no later effect happens. -/
def runWorker (convert : Str → Except Str Str) :
    List (SnipTask × TaskEnv) → StepEffects
  | [] => { results := [], clipWrites := [] }
  | (task, env) :: rest =>
    match processTask convert env task with
    | none => { results := [], clipWrites := [] }
    | some eff =>
      { results := eff.results ++ (runWorker convert rest).results
        clipWrites := eff.clipWrites ++ (runWorker convert rest).clipWrites }

/-- struct SnipItem of the app module revision under src (app.rs lines 405
to 412). -/
structure SnipItem where
  id : Uuid
  title : Str
  image_url : Str
  tex : Str
  typst : Str
deriving DecidableEq, Repr

/-- The session state touched by the per tick merge: the snip_items and
selected_snip_item fields of TypstScanData together with the result_queue
vector of the TypstScan struct (app.rs lines 22 to 37). -/
structure AppState where
  snip_items : List SnipItem
  selected_snip_item : Option Uuid
  result_queue : List MathpixResult
deriving DecidableEq, Repr

/-- The merge step at the top of TypstScan update (app.rs lines 96 to 108):
if the result queue vector is non empty, pop its LAST element (Vec pop) and
append a SnipItem built from it, with a fresh id. t2t models the external
conversion function applied at line 106, freshId the Uuid generated at line
102. The selection is not touched. -/
def mergeTick (t2t : Str → Str) (freshId : Uuid) (s : AppState) : AppState :=
  if h : s.result_queue = [] then s
  else
    { s with
      result_queue := s.result_queue.dropLast
      snip_items := s.snip_items ++
        [{ id := freshId
           title := (s.result_queue.getLast h).title
           image_url := (s.result_queue.getLast h).images.original.fullsize.url
           tex := (s.result_queue.getLast h).text
           typst := t2t (s.result_queue.getLast h).text }] }

/-! ### Concrete fixtures used by witnesses and counterexamples -/

/-- A conversion collaborator that succeeds and returns its input. -/
def conv0 : Str → Except Str Str := fun s => Except.ok s

/-- A conversion collaborator that always fails. -/
def convFail : Str → Except Str Str := fun _ => Except.error (strOf ("boom"))

/-- An identity markup conversion for the merge fixtures. -/
def t2t0 : Str → Str := fun s => s

/-- Builder for a concrete MathpixResult, filling the fields the pipeline
never reads with defaults. -/
def mkMathpix (text title u1 u2 : Str) (c l : Nat) : MathpixResult :=
  { id := []
    status := []
    text := text
    latex := none
    title := title
    images := { original := { fullsize := { url := u1 }, thumbnail := { url := u1 } }
                rendered := { fullsize := { url := u2 }, thumbnail := { url := u2 } } }
    auto_rotate_degrees := 0
    ocr_version := 2
    created_at := []
    modified_at := []
    time_ms := { ocr_api_response := 0, read_request_body := 0 }
    snip_count := c
    snip_limit := l
    extra_snips := 0
    snip_overage_count := 0
    folder_id := [] }

/-- Shared data snapshot with no rules and mode CopyTeX. -/
def appData0 : TypstScanData :=
  { mathpix_api_key := []
    replace_rules := []
    clipboard_mode := ClipboardMode.CopyTeX
    bring_forward := false
    target_process_name := []
    target_window_title := [] }

/-- A concrete successful parse result. -/
def m0 : MathpixResult := mkMathpix (strOf ("x^2")) (strOf ("t0")) (strOf ("u1")) (strOf ("u2")) 5 100

/-- Oracle for a fully successful task. -/
def envOk : TaskEnv :=
  { capture := some (strOf ("/tmp/s.png"))
    sendOk := true
    parse := some m0
    lockOk := true
    appData := appData0 }

/-- Oracle for a task whose capture the user cancels. -/
def envCancel : TaskEnv := { envOk with capture := none }

/-- Oracle for a task whose HTTP send fails. -/
def envTransportFail : TaskEnv := { envOk with sendOk := false }

/-- Oracle for a task whose response body fails to parse. -/
def envMalformed : TaskEnv := { envOk with parse := none }

def task1 : SnipTask := { id := 1 }

def task2 : SnipTask := { id := 2 }

/-! ### Helper lemmas about one worker iteration -/

/-- Unfolding of a fully successful iteration. -/
theorem processTask_success (convert : Str → Except Str Str) (env : TaskEnv) (task : SnipTask)
    (path : Str) (m : MathpixResult)
    (hc : env.capture = some path) (hs : env.sendOk = true) (hp : env.parse = some m) :
    processTask convert env task =
      some { results := [mkTaskResult convert env task path m]
             clipWrites := taskWrites convert env m } := by
  simp only [processTask, hc, hs, hp]

/-- Every result emitted by one iteration carries the id of the task, and
at most one result is emitted. -/
theorem processTask_results_shape (convert : Str → Except Str Str) (env : TaskEnv)
    (task : SnipTask) (eff : StepEffects)
    (hpt : processTask convert env task = some eff) :
    (∀ r ∈ eff.results, r.id = task.id) ∧ eff.results.length ≤ 1 := by
  cases hc : env.capture with
  | none =>
    simp only [processTask, hc, Option.some.injEq] at hpt
    obtain rfl := hpt
    simp
  | some path =>
    cases hs : env.sendOk with
    | false =>
      simp only [processTask, hc, hs] at hpt
      exact Option.noConfusion hpt
    | true =>
      cases hp : env.parse with
      | none =>
        simp only [processTask, hc, hs, hp, Option.some.injEq] at hpt
        obtain rfl := hpt
        simp
      | some m =>
        simp only [processTask, hc, hs, hp, Option.some.injEq] at hpt
        obtain rfl := hpt
        simp [mkTaskResult]

/-- A cancelled capture or a parse failure completes with no results. -/
theorem processTask_drop (convert : Str → Except Str Str) (env : TaskEnv)
    (task : SnipTask) (eff : StepEffects)
    (hpt : processTask convert env task = some eff)
    (herr : env.capture = none ∨ env.sendOk = false ∨ env.parse = none) :
    eff.results = [] := by
  rcases herr with hc | hs | hp
  · simp only [processTask, hc, Option.some.injEq] at hpt
    obtain rfl := hpt
    rfl
  · cases hc : env.capture with
    | none =>
      simp only [processTask, hc, Option.some.injEq] at hpt
      obtain rfl := hpt
      rfl
    | some path =>
      simp only [processTask, hc, hs] at hpt
      exact Option.noConfusion hpt
  · cases hc : env.capture with
    | none =>
      simp only [processTask, hc, Option.some.injEq] at hpt
      obtain rfl := hpt
      rfl
    | some path =>
      cases hs : env.sendOk with
      | false =>
        simp only [processTask, hc, hs] at hpt
        exact Option.noConfusion hpt
      | true =>
        simp only [processTask, hc, hs, hp, Option.some.injEq] at hpt
        obtain rfl := hpt
        rfl

/-- Every id appearing among the emitted results belongs to some queued task. -/
theorem runWorker_ids (convert : Str → Except Str Str)
    (tasks : List (SnipTask × TaskEnv)) :
    ∀ r ∈ (runWorker convert tasks).results, r.id ∈ tasks.map fun p => p.1.id := by
  induction tasks with
  | nil =>
    intro r hr
    simp [runWorker] at hr
  | cons p rest ih =>
    obtain ⟨task, env⟩ := p
    intro r hr
    simp only [runWorker] at hr
    cases hpt : processTask convert env task with
    | none =>
      rw [hpt] at hr
      simp at hr
    | some eff =>
      rw [hpt] at hr
      simp only [List.map_cons, List.mem_cons]
      have hr2 : r ∈ eff.results ∨ r ∈ (runWorker convert rest).results := by
        simpa using hr
      rcases hr2 with hr2 | hr2
      · exact Or.inl ((processTask_results_shape convert env task eff hpt).1 r hr2)
      · exact Or.inr (ih r hr2)

/-! ### Claim theorems -/

/-- Claim C1: over any sequence of enqueued tasks (with their distinct ids)
processed by the worker, each task yields at most one TaskResult on the
result channel, and a cancelled capture, a transport error or a parse
error yields zero results for that task: no partial and no duplicate
results. -/
theorem worker_task_at_most_one (convert : Str → Except Str Str)
    (tasks : List (SnipTask × TaskEnv)) (t : SnipTask) (env : TaskEnv)
    (hnodup : (tasks.map fun p => p.1.id).Nodup)
    (hmem : (t, env) ∈ tasks) :
    (((runWorker convert tasks).results.filter fun r => r.id == t.id).length ≤ 1) ∧
    ((env.capture = none ∨ env.sendOk = false ∨ env.parse = none) →
      ((runWorker convert tasks).results.filter fun r => r.id == t.id) = []) := by
  induction tasks with
  | nil => cases hmem
  | cons p rest ih =>
    obtain ⟨t0, env0⟩ := p
    simp only [List.map_cons, List.nodup_cons] at hnodup
    obtain ⟨hni, hnd⟩ := hnodup
    cases hpt : processTask convert env0 t0 with
    | none =>
      simp [runWorker, hpt]
    | some eff =>
      have hsplit :
          (runWorker convert ((t0, env0) :: rest)).results.filter (fun r => r.id == t.id) =
            (eff.results.filter fun r => r.id == t.id) ++
            ((runWorker convert rest).results.filter fun r => r.id == t.id) := by
        simp only [runWorker, hpt]
        exact List.filter_append ..
      rcases List.mem_cons.mp hmem with heq | hmem2
      · obtain ⟨rfl, rfl⟩ := Prod.mk.injEq .. ▸ heq
        have hrest : (runWorker convert rest).results.filter (fun r => r.id == t.id) = [] := by
          rw [List.filter_eq_nil_iff]
          intro r hr
          have hid : r.id ∈ rest.map fun p => p.1.id := runWorker_ids convert rest r hr
          simp only [beq_iff_eq]
          intro hcontra
          exact hni (hcontra ▸ hid)
        constructor
        · rw [hsplit, hrest, List.append_nil]
          calc (eff.results.filter fun r => r.id == t.id).length
              ≤ eff.results.length := List.length_filter_le _ _
            _ ≤ 1 := (processTask_results_shape convert env t eff hpt).2
        · intro herr
          rw [hsplit, hrest, List.append_nil,
            processTask_drop convert env t eff hpt herr]
          rfl
      · have htid : t.id ∈ rest.map fun p => p.1.id :=
          List.mem_map.mpr ⟨(t, env), hmem2, rfl⟩
        have hneq : t0.id ≠ t.id := fun h => hni (h ▸ htid)
        have heffnil : eff.results.filter (fun r => r.id == t.id) = [] := by
          rw [List.filter_eq_nil_iff]
          intro r hr
          have := (processTask_results_shape convert env0 t0 eff hpt).1 r hr
          simp only [beq_iff_eq, this]
          exact hneq
        obtain ⟨ih1, ih2⟩ := ih hnd hmem2
        constructor
        · rw [hsplit, heffnil, List.nil_append]
          exact ih1
        · intro herr
          rw [hsplit, heffnil, List.nil_append]
          exact ih2 herr

/-- Witness for claim C1 at a concrete queue: a successful task followed by
a cancelled one; the cancelled task yields zero results. -/
theorem worker_task_at_most_one_witness :
    ((([(task1, envOk), (task2, envCancel)].map fun p => p.1.id).Nodup ∧
      (task2, envCancel) ∈ [(task1, envOk), (task2, envCancel)]) ∧
     (envCancel.capture = none ∨ envCancel.sendOk = false ∨ envCancel.parse = none)) ∧
    ((((runWorker conv0 [(task1, envOk), (task2, envCancel)]).results.filter
        fun r => r.id == task2.id).length ≤ 1) ∧
     ((envCancel.capture = none ∨ envCancel.sendOk = false ∨ envCancel.parse = none) →
      ((runWorker conv0 [(task1, envOk), (task2, envCancel)]).results.filter
        fun r => r.id == task2.id) = [])) :=
  ⟨⟨⟨by decide, by decide⟩, Or.inl rfl⟩,
   worker_task_at_most_one conv0 [(task1, envOk), (task2, envCancel)] task2 envCancel
     (by decide) (by decide)⟩

/-- Claim C2: for a completed task processed under a successfully taken
lock, the clipboard effect is decided by the mode snapshot: no write in
Continuous mode, and exactly one write otherwise, whose content is the raw
transcribed text in CopyTeX mode (CopySource in the spec) and the rule
transformed converted text in CopyTypst mode (CopyConverted in the spec),
matching the corresponding fields of the emitted TaskResult. -/
theorem clipboard_write_per_mode (convert : Str → Except Str Str) (env : TaskEnv)
    (task : SnipTask) (path : Str) (m : MathpixResult)
    (hc : env.capture = some path) (hs : env.sendOk = true) (hp : env.parse = some m)
    (hl : env.lockOk = true) :
    ∃ eff r, processTask convert env task = some eff ∧ eff.results = [r] ∧
      (env.appData.clipboard_mode = ClipboardMode.Continuous → eff.clipWrites = []) ∧
      (env.appData.clipboard_mode = ClipboardMode.CopyTeX →
        eff.clipWrites = [r.text] ∧ r.text = m.text) ∧
      (env.appData.clipboard_mode = ClipboardMode.CopyTypst →
        eff.clipWrites = [r.typst] ∧
        r.typst = applyRules env.appData.replace_rules (convOut convert m.text)) := by
  refine ⟨_, _, processTask_success convert env task path m hc hs hp, rfl, ?_, ?_, ?_⟩ <;>
    intro hm <;>
    simp [taskWrites, mkTaskResult, taskTypst, hl, hm]

/-- Witness for claim C2 at the concrete successful task envOk, whose mode
snapshot is CopyTeX. -/
theorem clipboard_write_per_mode_witness :
    (envOk.capture = some (strOf ("/tmp/s.png")) ∧ envOk.sendOk = true ∧
      envOk.parse = some m0 ∧ envOk.lockOk = true) ∧
    (∃ eff r, processTask conv0 envOk task1 = some eff ∧ eff.results = [r] ∧
      (envOk.appData.clipboard_mode = ClipboardMode.Continuous → eff.clipWrites = []) ∧
      (envOk.appData.clipboard_mode = ClipboardMode.CopyTeX →
        eff.clipWrites = [r.text] ∧ r.text = m0.text) ∧
      (envOk.appData.clipboard_mode = ClipboardMode.CopyTypst →
        eff.clipWrites = [r.typst] ∧
        r.typst = applyRules envOk.appData.replace_rules (convOut conv0 m0.text))) :=
  ⟨⟨rfl, rfl, rfl, rfl⟩,
   clipboard_write_per_mode conv0 envOk task1 (strOf ("/tmp/s.png")) m0 rfl rfl rfl rfl⟩

/-- Claim C3: the rule loop is a sequential left composition, each rule
operating on the output of the previous one, so a later rule can match
text introduced by an earlier rule; in particular the rules a to b then
b to c take the input a to c. -/
theorem applyRules_sequential (r : ReplaceRule) (rules : List ReplaceRule) (t : Str) :
    applyRules (r :: rules) t = applyRules rules (rustReplace t r.pattern r.replacement) ∧
    applyRules [⟨strOf ("a"), strOf ("b")⟩, ⟨strOf ("b"), strOf ("c")⟩] (strOf ("a")) =
      strOf ("c") :=
  ⟨rfl, by decide⟩

/-- Counterexample to claim C4: a transport failure is not logged and
dropped; the send unwrap at worker.rs line 103 panics, so it is not fatal
only to that task either: after a failed send on the first task, a fully
healthy second task also yields nothing, the whole worker run producing no
results at all instead of one result for the healthy task. -/
theorem transport_failure_crashes_worker :
    processTask conv0 envTransportFail task1 = none ∧
    runWorker conv0 [(task1, envTransportFail), (task2, envOk)] =
      { results := [], clipWrites := [] } ∧
    runWorker conv0 [(task2, envOk)] ≠ { results := [], clipWrites := [] } := by
  refine ⟨rfl, rfl, ?_⟩
  decide

/-- Claim C4 (amended): a response body that fails to parse against the
schema is fatal only to that task: the error is logged, the task is
dropped with zero results and zero clipboard writes, and the remaining
queue is processed as if the task had not been there. A transport failure
of the HTTP send, however, is not dropped: the unwrap panics and the
worker thread dies. -/
theorem malformed_drops_task_transport_crashes (convert : Str → Except Str Str)
    (env : TaskEnv) (task : SnipTask) (path : Str)
    (hc : env.capture = some path) (hs : env.sendOk = true) (hp : env.parse = none) :
    processTask convert env task = some { results := [], clipWrites := [] } ∧
    (∀ rest, runWorker convert ((task, env) :: rest) = runWorker convert rest) ∧
    (∀ (env2 : TaskEnv) (task2 : SnipTask) (path2 : Str),
      env2.capture = some path2 → env2.sendOk = false →
      processTask convert env2 task2 = none) := by
  have h1 : processTask convert env task = some { results := [], clipWrites := [] } := by
    simp only [processTask, hc, hs, hp]
  refine ⟨h1, ?_, ?_⟩
  · intro rest
    simp only [runWorker, h1, List.nil_append]
  · intro env2 task2 path2 hc2 hs2
    simp only [processTask, hc2, hs2]

/-- Witness for the amended claim C4 at the concrete malformed response
oracle envMalformed. -/
theorem malformed_drops_task_transport_crashes_witness :
    (envMalformed.capture = some (strOf ("/tmp/s.png")) ∧ envMalformed.sendOk = true ∧
      envMalformed.parse = none) ∧
    (processTask conv0 envMalformed task1 = some { results := [], clipWrites := [] } ∧
     (∀ rest, runWorker conv0 ((task1, envMalformed) :: rest) = runWorker conv0 rest) ∧
     (∀ (env2 : TaskEnv) (task2 : SnipTask) (path2 : Str),
       env2.capture = some path2 → env2.sendOk = false →
       processTask conv0 env2 task2 = none)) :=
  ⟨⟨rfl, rfl, rfl⟩,
   malformed_drops_task_transport_crashes conv0 envMalformed task1 (strOf ("/tmp/s.png"))
     rfl rfl rfl⟩

/-- Counterexample to claim C5: when the markup conversion fails the worker
does not substitute an empty string; it substitutes the rendered error
message. Concretely, with a converter failing with error boom, the
delivered converted text is the string Error: boom, which is not the empty
string. -/
theorem conversion_fallback_is_error_text :
    ((processTask convFail envOk task1).map fun eff => eff.results.map fun r => r.typst) =
      some [strOf ("Error: boom")] ∧
    strOf ("Error: boom") ≠ strOf ("") := by
  constructor
  · decide
  · decide

/-- Claim C5 (amended): when the markup conversion fails, the worker
substitutes the rendered error message (format Error: followed by the
error) as the converted text, which is never the empty string, and the
task still completes and is delivered: a failed conversion never drops the
task. -/
theorem conversion_failure_still_delivers (convert : Str → Except Str Str)
    (env : TaskEnv) (task : SnipTask) (path : Str) (m : MathpixResult) (e : Str)
    (hc : env.capture = some path) (hs : env.sendOk = true) (hp : env.parse = some m)
    (he : convert m.text = Except.error e) :
    ∃ eff r, processTask convert env task = some eff ∧ eff.results = [r] ∧
      r.typst = (if env.lockOk then applyRules env.appData.replace_rules (convFallback e)
                 else convFallback e) ∧
      convFallback e ≠ [] := by
  refine ⟨_, _, processTask_success convert env task path m hc hs hp, rfl, ?_, ?_⟩
  · simp [mkTaskResult, taskTypst, convOut, he]
  · simp [convFallback]

/-- Witness for the amended claim C5 at the concrete failing converter. -/
theorem conversion_failure_still_delivers_witness :
    (envOk.capture = some (strOf ("/tmp/s.png")) ∧ envOk.sendOk = true ∧
      envOk.parse = some m0 ∧ convFail m0.text = Except.error (strOf ("boom"))) ∧
    (∃ eff r, processTask convFail envOk task1 = some eff ∧ eff.results = [r] ∧
      r.typst = (if envOk.lockOk then
                   applyRules envOk.appData.replace_rules (convFallback (strOf ("boom")))
                 else convFallback (strOf ("boom"))) ∧
      convFallback (strOf ("boom")) ≠ []) :=
  ⟨⟨rfl, rfl, rfl, rfl⟩,
   conversion_failure_still_delivers convFail envOk task1 (strOf ("/tmp/s.png")) m0
     (strOf ("boom")) rfl rfl rfl rfl⟩

/-- Counterexample to claim C6: a rule with an empty pattern is not a no-op
in Rust; String::replace with an empty pattern matches at every character
boundary. Applying the rule with empty pattern and replacement x to the
input a yields xax, not a. -/
theorem empty_pattern_rule_changes_text :
    applyRules [⟨[], strOf ("x")⟩] (strOf ("a")) = strOf ("xax") ∧
    strOf ("xax") ≠ strOf ("a") := by
  constructor
  · decide
  · decide

/-- Claim C6 (amended): rule application is total and never fails, but a
rule with an empty pattern is a no-op only when its replacement is also
empty; otherwise it inserts the replacement at every character boundary,
growing the text from length n to n plus (n + 1) times the replacement
length. -/
theorem empty_pattern_rule (s rep : Str) :
    (rustReplace s [] rep).length = s.length + (s.length + 1) * rep.length ∧
    (rustReplace s [] rep = s ↔ rep = []) := by
  have hlen : ∀ s2 : Str, (emptyPatReplace rep s2).length
      = s2.length + (s2.length + 1) * rep.length := by
    intro s2
    induction s2 with
    | nil => simp [emptyPatReplace]
    | cons c rest ih =>
      simp only [emptyPatReplace, List.length_append, List.length_cons, ih]
      ring
  have hid : ∀ s2 : Str, emptyPatReplace ([] : Str) s2 = s2 := by
    intro s2
    induction s2 with
    | nil => rfl
    | cons c rest ih => simp [emptyPatReplace, ih]
  refine ⟨hlen s, ?_, ?_⟩
  · intro h
    have hl : s.length + 0 = s.length + (s.length + 1) * rep.length := by
      rw [Nat.add_zero]
      conv_lhs => rw [← h]
      exact hlen s
    have h0 : (s.length + 1) * rep.length = 0 := (Nat.add_left_cancel hl).symm
    rcases Nat.mul_eq_zero.mp h0 with h1 | h1
    · exact absurd h1 (Nat.succ_ne_zero _)
    · exact List.length_eq_zero.mp h1
  · intro h
    subst h
    exact hid s

/-! ### Fixtures for the merge claims -/

/-- First arrived pending response, title t1. -/
def mA : MathpixResult := mkMathpix (strOf ("xA")) (strOf ("t1")) (strOf ("uA")) (strOf ("uA2")) 1 10

/-- Second arrived pending response, title t2. -/
def mB : MathpixResult := mkMathpix (strOf ("xB")) (strOf ("t2")) (strOf ("uB")) (strOf ("uB2")) 2 10

/-- Session state with two pending results, mA arrived before mB. -/
def s0 : AppState := { snip_items := [], selected_snip_item := none, result_queue := [mA, mB] }

/-- Counterexample to claim C7: with two pending results (mA arrived before
mB), one UI tick merges the LATER one, because Vec pop takes the back of
the queue, so results are not merged in task order; and the merged item is
not made the current selection, which stays none instead of becoming the
fresh id 7. -/
theorem merge_tick_lifo_and_keeps_selection :
    ((mergeTick t2t0 7 s0).snip_items.map fun it => it.title) = [strOf ("t2")] ∧
    strOf ("t2") ≠ strOf ("t1") ∧
    (mergeTick t2t0 7 s0).selected_snip_item = none ∧
    (mergeTick t2t0 7 s0).result_queue = [mA] := by
  refine ⟨by decide, by decide, by decide, by decide⟩

/-- Characterization of one merge tick on a non empty queue, stated on an
explicit state: the back element is popped and turned into the appended
SnipItem; the selection field is untouched. -/
theorem mergeTick_concat (t2t : Str → Str) (fid : Uuid) (items : List SnipItem)
    (sel : Option Uuid) (q : List MathpixResult) (m : MathpixResult) :
    mergeTick t2t fid
      { snip_items := items, selected_snip_item := sel, result_queue := q ++ [m] } =
      { snip_items := items ++
          [{ id := fid
             title := m.title
             image_url := m.images.original.fullsize.url
             tex := m.text
             typst := t2t m.text }]
        selected_snip_item := sel
        result_queue := q } := by
  simp [mergeTick, List.getLast_append]

/-- Claim C7 (amended): on each UI tick the merger performs a single non
blocking check and merges at most one pending result; when results are
pending it takes the one at the BACK of the queue (reverse arrival order),
appends exactly one new SnipItem built from it under a fresh id, and
leaves the current selection unchanged. -/
theorem merge_tick_amended (t2t : Str → Str) (fid : Uuid) (s : AppState)
    (q : List MathpixResult) (m : MathpixResult)
    (h : s.result_queue = q ++ [m]) :
    (mergeTick t2t fid s).snip_items = s.snip_items ++
      [{ id := fid
         title := m.title
         image_url := m.images.original.fullsize.url
         tex := m.text
         typst := t2t m.text }] ∧
    (mergeTick t2t fid s).selected_snip_item = s.selected_snip_item ∧
    (mergeTick t2t fid s).result_queue = q := by
  obtain ⟨items, sel, queue⟩ := s
  have h2 : queue = q ++ [m] := h
  subst h2
  rw [mergeTick_concat]
  exact ⟨rfl, rfl, rfl⟩

/-- Witness for the amended claim C7 at the concrete two element queue s0:
the tick merges mB, the later arrival, and leaves mA queued. -/
theorem merge_tick_amended_witness :
    s0.result_queue = [mA] ++ [mB] ∧
    ((mergeTick t2t0 7 s0).snip_items = s0.snip_items ++
      [{ id := 7
         title := mB.title
         image_url := mB.images.original.fullsize.url
         tex := mB.text
         typst := t2t0 mB.text }] ∧
     (mergeTick t2t0 7 s0).selected_snip_item = s0.selected_snip_item ∧
     (mergeTick t2t0 7 s0).result_queue = [mA]) :=
  ⟨rfl, merge_tick_amended t2t0 7 s0 [mA] mB rfl⟩

/-- Claim C8: the source text of an emitted TaskResult equals the
transcribed text exactly as parsed from the service response, untouched by
the rule engine for every rule list and lock outcome; only the typst field
carries the rule transformed text. -/
theorem source_text_unmutated (convert : Str → Except Str Str) (env : TaskEnv)
    (task : SnipTask) (path : Str) (m : MathpixResult)
    (hc : env.capture = some path) (hs : env.sendOk = true) (hp : env.parse = some m) :
    ∃ eff r, processTask convert env task = some eff ∧ eff.results = [r] ∧
      r.text = m.text ∧
      r.typst = (if env.lockOk then
                   applyRules env.appData.replace_rules (convOut convert m.text)
                 else convOut convert m.text) := by
  refine ⟨_, _, processTask_success convert env task path m hc hs hp, rfl, rfl, ?_⟩
  simp [mkTaskResult, taskTypst]

/-- Witness for claim C8 at the concrete successful task. -/
theorem source_text_unmutated_witness :
    (envOk.capture = some (strOf ("/tmp/s.png")) ∧ envOk.sendOk = true ∧
      envOk.parse = some m0) ∧
    (∃ eff r, processTask conv0 envOk task1 = some eff ∧ eff.results = [r] ∧
      r.text = m0.text ∧
      r.typst = (if envOk.lockOk then
                   applyRules envOk.appData.replace_rules (convOut conv0 m0.text)
                 else convOut conv0 m0.text)) :=
  ⟨⟨rfl, rfl, rfl⟩,
   source_text_unmutated conv0 envOk task1 (strOf ("/tmp/s.png")) m0 rfl rfl rfl⟩

/-- Response fixture differing from its sibling only in the usage counters. -/
def mUsageA : MathpixResult := mkMathpix (strOf ("x")) (strOf ("t")) (strOf ("u")) (strOf ("v")) 5 100

/-- Response fixture differing from its sibling only in the usage counters. -/
def mUsageB : MathpixResult := mkMathpix (strOf ("x")) (strOf ("t")) (strOf ("u")) (strOf ("v")) 999 1

/-- Counterexample to claim C9: the merge ignores the usage counters of the
received result. Two responses that differ only in snip_count and
snip_limit produce IDENTICAL post merge session states, so no displayed
value can equal the most recently received usage counters for both; the
settings view renders a hard coded progress bar instead (app.rs line 228). -/
theorem merge_ignores_usage_counters :
    mergeTick t2t0 7 { snip_items := [], selected_snip_item := none, result_queue := [mUsageA] } =
      mergeTick t2t0 7 { snip_items := [], selected_snip_item := none, result_queue := [mUsageB] } ∧
    mUsageA.snip_count ≠ mUsageB.snip_count ∧ mUsageA.snip_limit ≠ mUsageB.snip_limit := by
  refine ⟨by decide, by decide, by decide⟩

/-- Claim C9 (amended): the worker propagates the service reported usage
counters verbatim into the TaskResult, never computing them locally; the
UI merge, however, ignores them entirely: the merged session state is
unchanged when the usage counters of the received response are replaced by
any other values. -/
theorem usage_counters_verbatim_merge_ignores (convert : Str → Except Str Str)
    (env : TaskEnv) (task : SnipTask) (path : Str) (m : MathpixResult)
    (hc : env.capture = some path) (hs : env.sendOk = true) (hp : env.parse = some m) :
    (∃ eff r, processTask convert env task = some eff ∧ eff.results = [r] ∧
      r.snip_count = m.snip_count ∧ r.snip_limit = m.snip_limit) ∧
    (∀ (t2t : Str → Str) (fid : Uuid) (items : List SnipItem) (sel : Option Uuid)
       (q : List MathpixResult) (c l : Nat),
      mergeTick t2t fid
        { snip_items := items, selected_snip_item := sel,
          result_queue := q ++ [{ m with snip_count := c, snip_limit := l }] } =
      mergeTick t2t fid
        { snip_items := items, selected_snip_item := sel, result_queue := q ++ [m] }) := by
  constructor
  · exact ⟨_, _, processTask_success convert env task path m hc hs hp, rfl, rfl, rfl⟩
  · intro t2t fid items sel q c l
    rw [mergeTick_concat, mergeTick_concat]

/-- Witness for the amended claim C9 at the concrete successful task. -/
theorem usage_counters_verbatim_merge_ignores_witness :
    (envOk.capture = some (strOf ("/tmp/s.png")) ∧ envOk.sendOk = true ∧
      envOk.parse = some m0) ∧
    ((∃ eff r, processTask conv0 envOk task1 = some eff ∧ eff.results = [r] ∧
       r.snip_count = m0.snip_count ∧ r.snip_limit = m0.snip_limit) ∧
     (∀ (t2t : Str → Str) (fid : Uuid) (items : List SnipItem) (sel : Option Uuid)
        (q : List MathpixResult) (c l : Nat),
       mergeTick t2t fid
         { snip_items := items, selected_snip_item := sel,
           result_queue := q ++ [{ m0 with snip_count := c, snip_limit := l }] } =
       mergeTick t2t fid
         { snip_items := items, selected_snip_item := sel, result_queue := q ++ [m0] })) :=
  ⟨⟨rfl, rfl, rfl⟩,
   usage_counters_verbatim_merge_ignores conv0 envOk task1 (strOf ("/tmp/s.png")) m0
     rfl rfl rfl⟩

/-- Claim C10: every emitted TaskResult carries the id of the SnipTask it
was produced from; correlation is by the original task id, not by a fresh
one. -/
theorem result_id_is_task_id (convert : Str → Except Str Str) (env : TaskEnv)
    (task : SnipTask) (path : Str) (m : MathpixResult)
    (hc : env.capture = some path) (hs : env.sendOk = true) (hp : env.parse = some m) :
    ∃ eff r, processTask convert env task = some eff ∧ eff.results = [r] ∧
      r.id = task.id :=
  ⟨_, _, processTask_success convert env task path m hc hs hp, rfl, rfl⟩

/-- Witness for claim C10 at the concrete successful task. -/
theorem result_id_is_task_id_witness :
    (envOk.capture = some (strOf ("/tmp/s.png")) ∧ envOk.sendOk = true ∧
      envOk.parse = some m0) ∧
    (∃ eff r, processTask conv0 envOk task1 = some eff ∧ eff.results = [r] ∧
      r.id = task1.id) :=
  ⟨⟨rfl, rfl, rfl⟩,
   result_id_is_task_id conv0 envOk task1 (strOf ("/tmp/s.png")) m0 rfl rfl rfl⟩
